import Mathlib

/-!
Verification of the iris-web extras: the `IrisE01Processor` evidence-hook
module (`source/iris_e01_processor/IrisE01Processor.py`) and the CSV timeline
importer CLI (`source/tools/import_timeline_from_csv.py`).

The Python code is shallowly embedded: each helper becomes a pure Lean
function over an explicit `World` record that supplies the external
environment (the stored-file table, the possibility of the database layer
raising, the outcome of a process spawn).  Side effects (database queries,
directory creation, process spawns, log lines) are collected in an explicit
effect trace, so that "performs no side effect" claims become statements
about that trace.
-/

namespace IrisE01

/-- Python truthiness of an optional string value (`None` and `""` are falsy). -/
def truthyStr : Option String → Bool
  | none => false
  | some s => !s.isEmpty

/-- Python truthiness of an optional integer value (`None` and `0` are falsy). -/
def truthyInt : Option Int → Bool
  | none => false
  | some n => n != 0

/-- `module_name` from `IrisE01ProcessorConfig.py`. -/
def module_name : String := "iris_e01_processor"

/-- Host `Client` record: supplies the client (customer) name. -/
structure ClientRec where
  name : String
deriving Repr, DecidableEq

/-- Host `Cases` record: supplies the case name and its optional client. -/
structure CaseRec where
  name : String
  client : Option ClientRec
deriving Repr, DecidableEq

/-- Host `CaseReceivedFile` record, the evidence object delivered by the hook.
`case_id` and `file_hash` are optional to model Python `None`. -/
structure CaseReceivedFile where
  id : Int
  case_id : Option Int
  file_hash : Option String
  caseRec : Option CaseRec
deriving Repr, DecidableEq

/-- Host `DataStoreFile` record, as queried by `_resolve_evidence_path`. -/
structure DataStoreFile where
  file_case_id : Int
  file_sha256 : String
  file_date_added : Int
  file_local_name : String
deriving Repr, DecidableEq

/-- Module configuration as read from `module_dict_conf`
(cf. `IrisE01ProcessorConfig.module_configuration`). -/
structure ModuleConf where
  enabled : Bool
  e01_script_path : Option String
  e01_script_extra_args : Option String
  log_debug : Bool
deriving Repr, DecidableEq

/-- An object delivered inside the hook payload: either a `CaseReceivedFile`
or some other host object (ignored by the module). -/
inductive HookObj
  | evid (e : CaseReceivedFile)
  | other (tag : Nat)
deriving Repr, DecidableEq

/-- The hook payload `data`: a Python list of objects, or a single object. -/
inductive HookData
  | list (objs : List HookObj)
  | single (obj : HookObj)
deriving Repr, DecidableEq

/-- `IrisInterfaceStatus` results used by the module. -/
inductive InterfaceStatus
  | I2Success (data : HookData)
  | I2Error (message : String)
deriving Repr, DecidableEq

/-- The log lines emitted by the module, one constructor per call site. -/
inductive LogMsg
  | scriptPathNotConfigured
  | debugNoEvidences (hook_name : String)
  | unableToResolve (evId : Int) (caseId : Option Int)
  | noDataStoreFile (evId : Int) (caseId : Int) (sha256 : String)
  | debugLaunching (script : String) (evId : Int)
  | parseExtraArgsFailed (raw : String)
  | outputDirFailed (evId : Int)
  | scriptNotFound (script : String)
  | launchScriptFailed (script : String)
  | itemException (evId : Int)
deriving Repr, DecidableEq

/-- Observable side effects of the module. -/
inductive Effect
  | log (m : LogMsg)
  | dbQuery (caseId : Int) (sha256 : String)
  | dirCreate (path : String)
  | spawn (args : List String) (cwd : Option String)
deriving Repr, DecidableEq

/-- Outcome of the `subprocess.Popen` call: success, `FileNotFoundError`
(the class raised when the script path does not exist — the module's own log
message reads "not found or not executable"), or any other exception. -/
inductive SpawnOutcome
  | ok
  | raisesFileNotFound
  | raisesOther
deriving Repr, DecidableEq

/-- The external environment of one `hooks_handler` invocation: the
`DataStoreFile` table, an oracle saying whether the database query raises,
the behaviour of `build_upload_path` (`none` models it raising), the host
`UPLOADED_PATH` configuration, and the outcome of a spawn attempt. -/
structure World where
  db : List DataStoreFile
  queryRaises : Int → String → Bool
  buildUploadPath : String → String → String → Option String
  uploadedPath : Option String
  spawnOutcome : List String → SpawnOutcome

/-- `.order_by(DataStoreFile.file_date_added.desc()).first()` over a bag of
matching rows: the row with the greatest `file_date_added` (the earlier row
wins a tie). -/
def selectLatest : List DataStoreFile → Option DataStoreFile
  | [] => none
  | r :: rs =>
    match selectLatest rs with
    | none => some r
    | some b => if b.file_date_added > r.file_date_added then some b else some r

/-- The rows of the table matching the filter of `_resolve_evidence_path`. -/
def matchingRows (db : List DataStoreFile) (caseId : Int) (sha : String) :
    List DataStoreFile :=
  db.filter fun r => r.file_case_id == caseId && r.file_sha256 == sha

/-- The `DataStoreFile.query...first()` call of `_resolve_evidence_path`. -/
def dsfQueryFirst (db : List DataStoreFile) (caseId : Int) (sha : String) :
    Option DataStoreFile :=
  selectLatest (matchingRows db caseId sha)

/-- `_resolve_evidence_path`.  `Except.error` models the database layer
raising out of the query (caught by the caller's per-item `except`); the
normal result is the optional local path together with the effect trace. -/
def resolve_evidence_path (w : World) (ev : CaseReceivedFile) :
    Except (List Effect) (Option String × List Effect) :=
  if !(truthyStr ev.file_hash) || !(truthyInt ev.case_id) then
    .ok (none, [])
  else
    let caseId := ev.case_id.getD 0
    let sha := ev.file_hash.getD ""
    if w.queryRaises caseId sha then
      .error [Effect.dbQuery caseId sha]
    else
      match dsfQueryFirst w.db caseId sha with
      | none =>
          .ok (none, [Effect.dbQuery caseId sha,
                      Effect.log (.noDataStoreFile ev.id caseId sha)])
      | some dsf =>
          .ok (some dsf.file_local_name, [Effect.dbQuery caseId sha])

/-- `_compute_output_dir`: derive the customer and case names, bail out on a
falsy one, otherwise call `build_upload_path` (whose raising is caught and
logged, yielding `none`). -/
def compute_output_dir (w : World) (ev : CaseReceivedFile) :
    Option String × List Effect :=
  match ev.caseRec with
  | none => (none, [])
  | some c =>
    let case_customer : Option String := c.client.map (·.name)
    if !(truthyStr case_customer) || !(truthyStr (some c.name)) then (none, [])
    else
      match w.buildUploadPath (case_customer.getD "") c.name module_name with
      | none => (none, [Effect.log (.outputDirFailed ev.id)])
      | some p => (some p, [Effect.dirCreate p])

/-- Errors of `shlex.split` (both raised as `ValueError` in Python). -/
inductive ShlexErr
  | noClosingQuotation
  | noEscapedCharacter
deriving Repr, DecidableEq

/-- `shlex.whitespace`. -/
def shlexIsWhitespace (c : Char) : Bool :=
  c == ' ' || c == '\t' || c == '\r' || c == '\n'

/-- Scanner states of the POSIX `shlex` tokenizer. -/
inductive ShlexMode
  | normal
  | escaped
  | singleQ
  | doubleQ
  | doubleQEsc
deriving Repr, DecidableEq

/-- Close the current token (if one was started) onto the accumulator. -/
def flushTok (cur : Option (List Char)) (acc : List String) : List String :=
  match cur with
  | none => acc
  | some cs => acc ++ [String.mk cs.reverse]

/-- One-character-at-a-time POSIX shell-word scanner
(`shlex.split` with `posix=True`, `whitespace_split=True`). -/
def shlexAux (mode : ShlexMode) (cur : Option (List Char)) (acc : List String) :
    List Char → Except ShlexErr (List String)
  | [] =>
    match mode with
    | .normal => .ok (flushTok cur acc)
    | .escaped => .error .noEscapedCharacter
    | _ => .error .noClosingQuotation
  | c :: cs =>
    match mode with
    | .normal =>
      if shlexIsWhitespace c then shlexAux .normal none (flushTok cur acc) cs
      else if c == '\'' then shlexAux .singleQ (some (cur.getD [])) acc cs
      else if c == '"' then shlexAux .doubleQ (some (cur.getD [])) acc cs
      else if c == '\\' then shlexAux .escaped (some (cur.getD [])) acc cs
      else shlexAux .normal (some (c :: cur.getD [])) acc cs
    | .escaped => shlexAux .normal (some (c :: cur.getD [])) acc cs
    | .singleQ =>
      if c == '\'' then shlexAux .normal cur acc cs
      else shlexAux .singleQ (some (c :: cur.getD [])) acc cs
    | .doubleQ =>
      if c == '"' then shlexAux .normal cur acc cs
      else if c == '\\' then shlexAux .doubleQEsc cur acc cs
      else shlexAux .doubleQ (some (c :: cur.getD [])) acc cs
    | .doubleQEsc =>
      if c == '"' || c == '\\' then shlexAux .doubleQ (some (c :: cur.getD [])) acc cs
      else shlexAux .doubleQ (some (c :: '\\' :: cur.getD [])) acc cs

/-- `shlex.split`. -/
def shlexSplit (s : String) : Except ShlexErr (List String) :=
  shlexAux .normal none [] s.data

/-- `cwd=output_dir or app.config.get("UPLOADED_PATH", None)`:
`or` treats an empty string as falsy. -/
def effectiveCwd (output_dir : Option String) (w : World) : Option String :=
  match output_dir with
  | some d => if d.isEmpty then w.uploadedPath else some d
  | none => w.uploadedPath

/-- `_launch_processing_script`: tokenize the extra arguments (a parse error
is logged and the extras are left empty), build the argument vector
`[script, e01_path] ++ extras`, and attempt the spawn, logging a
`FileNotFoundError` distinctly from any other spawn exception. -/
def launch_processing_script (w : World) (script_path extra_args_raw : String)
    (e01_path : String) (output_dir : Option String) : List Effect :=
  let parsed : List String × List Effect :=
    if extra_args_raw.isEmpty then ([], [])
    else
      match shlexSplit extra_args_raw with
      | .ok toks => (toks, [])
      | .error _ => ([], [Effect.log (.parseExtraArgsFailed extra_args_raw)])
  let args := [script_path, e01_path] ++ parsed.1
  let spawnEffs : List Effect :=
    match w.spawnOutcome args with
    | .ok => [Effect.spawn args (effectiveCwd output_dir w)]
    | .raisesFileNotFound => [Effect.log (.scriptNotFound script_path)]
    | .raisesOther => [Effect.log (.launchScriptFailed script_path)]
  parsed.2 ++ spawnEffs

/-- The `try` body of the per-evidence loop in `hooks_handler`, together with
the `except` clause catching an exception out of the path resolution. -/
def process_one_evidence (w : World) (script_path extra_args_raw : String)
    (log_debug : Bool) (ev : CaseReceivedFile) : List Effect :=
  match resolve_evidence_path w ev with
  | .error effs => effs ++ [Effect.log (.itemException ev.id)]
  | .ok (none, effs) => effs ++ [Effect.log (.unableToResolve ev.id ev.case_id)]
  | .ok (some e01_path, effs) =>
    let od := compute_output_dir w ev
    let dbg := if log_debug then [Effect.log (.debugLaunching script_path ev.id)] else []
    effs ++ od.2 ++ dbg ++ launch_processing_script w script_path extra_args_raw e01_path od.1

/-- The `isinstance` filter of `hooks_handler`: keep the `CaseReceivedFile`
objects of a list payload, wrap a single `CaseReceivedFile`, else nothing. -/
def extractEvidences : HookData → List CaseReceivedFile
  | .list objs => objs.filterMap fun o =>
      match o with
      | .evid e => some e
      | .other _ => none
  | .single (.evid e) => [e]
  | .single (.other _) => []

/-- `hooks_handler`, returning the `IrisInterfaceStatus` result and the
trace of side effects of the invocation. -/
def hooks_handler (w : World) (conf : ModuleConf) (hook_name : String)
    (data : HookData) : InterfaceStatus × List Effect :=
  if !conf.enabled then (.I2Success data, [])
  else if hook_name != "on_postload_evidence_create" then (.I2Success data, [])
  else
    let script_path := conf.e01_script_path
    let extra_args_raw := conf.e01_script_extra_args.getD ""
    if !(truthyStr script_path) then
      (.I2Error "e01_script_path not configured", [Effect.log .scriptPathNotConfigured])
    else
      let evidences := extractEvidences data
      if evidences.isEmpty then
        (.I2Success data,
         if conf.log_debug then [Effect.log (.debugNoEvidences hook_name)] else [])
      else
        (.I2Success data,
         evidences.flatMap
           (process_one_evidence w (script_path.getD "") extra_args_raw conf.log_debug))

end IrisE01

namespace CsvImport

/-- `base_url.rstrip('/')`: drop every trailing slash. -/
def rstripSlashes (s : String) : String :=
  String.mk ((s.data.reverse.dropWhile (fun c => c == '/')).reverse)

/-- The f-string building the request URL in `import_csv`. -/
def build_request_url (base_url : String) (case_id : Int) : String :=
  rstripSlashes base_url ++ "/case/evidences/" ++ toString case_id
    ++ "/../timeline/events/csv_upload"

/-- `build_headers`: content type, then the optional bearer token, then the
optional raw cookie, each gated on Python truthiness. -/
def build_headers (api_token cookie : Option String) : List (String × String) :=
  [("Content-Type", "application/json")]
    ++ (match api_token with
        | some t => if t.isEmpty then [] else [("Authorization", "Bearer " ++ t)]
        | none => [])
    ++ (match cookie with
        | some c => if c.isEmpty then [] else [("Cookie", c)]
        | none => [])

/-- An HTTP response: status code, the parsed JSON object when `resp.json()`
succeeds (modelled as string fields), and the raw body text. -/
structure HttpResponse where
  status_code : Nat
  jsonBody : Option (List (String × String))
  text : String
deriving Repr, DecidableEq

/-- `resp.ok` of the requests library: true unless `raise_for_status` would
raise, i.e. unless 400 <= status < 600. -/
def respOk (r : HttpResponse) : Bool :=
  decide (r.status_code < 400) || decide (600 ≤ r.status_code)

/-- The `data` variable of `import_csv`: the parsed JSON object, or the
fallback dictionary wrapping the raw text. -/
inductive RespData
  | obj (fields : List (String × String))
  | raw (text : String)
deriving Repr, DecidableEq

/-- `resp.json()` with the `ValueError` fallback to the raw-text dict. -/
def respDataOf (r : HttpResponse) : RespData :=
  match r.jsonBody with
  | some fields => .obj fields
  | none => .raw r.text

/-- Printable rendering of `data`, standing in for the Python dict repr. -/
def reprData : RespData → String
  | .obj fields =>
      "\x7b" ++ String.intercalate ", " (fields.map fun kv => kv.1 ++ ": " ++ kv.2) ++ "\x7d"
  | .raw t => "\x7braw: " ++ t ++ "\x7d"

/-- `dict.get` over the modelled JSON object. -/
def lookupField (k : String) : List (String × String) → Option String
  | [] => none
  | kv :: rest => if kv.1 == k then some kv.2 else lookupField k rest

/-- `data.get('message', '') or data`: the message field when present and
non-empty, otherwise the rendering of the whole body. -/
def successDisplay (d : RespData) : String :=
  let m := match d with
    | .obj fields => (lookupField "message" fields).getD ""
    | .raw _ => ""
  if m.isEmpty then reprData d else m

/-- Observable actions of the CLI: a file read, the HTTP POST, and the lines
printed to standard output and standard error. -/
inductive CliEffect
  | readFile (path : String)
  | httpPost (url : String)
  | printOut (line : String)
  | printErr (line : String)
deriving Repr, DecidableEq

/-- The environment of a CLI run: the filesystem (existence and content) and
the network (a response for the single POST), plus the
`Path(...).expanduser().resolve()` normalization. -/
structure CliWorld where
  isFile : String → Bool
  fileContent : String → String
  resolvePath : String → String
  post : String → HttpResponse

/-- The `CSVOptions` sub-object of the JSON payload. -/
structure CSVOptions where
  event_sync_iocs_assets : Bool
  event_in_summary : Bool
  event_in_graph : Bool
  event_source : String
deriving Repr, DecidableEq

/-- The JSON payload posted by `import_csv`. -/
structure Payload where
  CSVData : String
  options : CSVOptions
deriving Repr, DecidableEq

/-- `import_csv`: read the CSV, build the URL and payload, perform the single
POST, and report the result, returning the exit code and the effect trace. -/
def import_csv (w : CliWorld) (base_url : String) (case_id : Int)
    (csv_path : String) (api_token cookie : Option String) (event_source : String)
    (event_in_summary event_in_graph sync_iocs_assets : Bool) :
    Int × List CliEffect :=
  let _csv_text := w.fileContent csv_path
  let url := build_request_url base_url case_id
  let _payload : Payload :=
    ⟨_csv_text, ⟨sync_iocs_assets, event_in_summary, event_in_graph, event_source⟩⟩
  let _headers := build_headers api_token cookie
  let resp := w.post url
  let data := respDataOf resp
  if respOk resp then
    (0, [CliEffect.readFile csv_path, CliEffect.httpPost url,
         CliEffect.printOut ("[+] Import succeeded: " ++ successDisplay data)])
  else
    (1, [CliEffect.readFile csv_path, CliEffect.httpPost url,
         CliEffect.printErr ("[-] Import failed (HTTP " ++ toString resp.status_code
           ++ "): " ++ reprData data)])

/-- The parsed CLI arguments of `main`. -/
structure CliArgs where
  base_url : String
  case_id : Int
  csv : String
  api_token : Option String
  cookie : Option String
  event_source : String
  no_summary : Bool
  no_graph : Bool
  sync_iocs_assets : Bool
deriving Repr, DecidableEq

/-- `main` after argument parsing: resolve the CSV path, fail fast when it is
not a file, otherwise delegate to `import_csv`. -/
def main (w : CliWorld) (args : CliArgs) : Int × List CliEffect :=
  let csv_path := w.resolvePath args.csv
  if !(w.isFile csv_path) then
    (1, [CliEffect.printErr ("CSV file not found: " ++ csv_path)])
  else
    import_csv w args.base_url args.case_id csv_path args.api_token args.cookie
      args.event_source (!args.no_summary) (!args.no_graph) args.sync_iocs_assets

end CsvImport

open IrisE01 CsvImport

/-! ## Helper lemmas -/

theorem selectLatest_mem {l : List DataStoreFile} {b : DataStoreFile}
    (h : selectLatest l = some b) : b ∈ l := by
  induction l with
  | nil => simp [selectLatest] at h
  | cons a tl ih =>
    simp only [selectLatest] at h
    rcases htl : selectLatest tl with _ | c <;> rw [htl] at h <;> dsimp only at h
    · cases Option.some.inj h
      exact List.mem_cons_self _ _
    · by_cases hc : c.file_date_added > a.file_date_added
      · rw [if_pos hc] at h
        cases Option.some.inj h
        exact List.mem_cons_of_mem _ (ih htl)
      · rw [if_neg hc] at h
        cases Option.some.inj h
        exact List.mem_cons_self _ _

theorem selectLatest_strict_max {l : List DataStoreFile} {r : DataStoreFile}
    (hmem : r ∈ l)
    (hmax : ∀ s ∈ l, s ≠ r → s.file_date_added < r.file_date_added) :
    selectLatest l = some r := by
  induction l with
  | nil => cases hmem
  | cons a tl ih =>
    simp only [selectLatest]
    by_cases hrtl : r ∈ tl
    · have htl : selectLatest tl = some r :=
        ih hrtl (fun s hs hne => hmax s (List.mem_cons_of_mem a hs) hne)
      by_cases har : a = r
      · subst har
        rw [htl]; dsimp only
        rw [if_neg (lt_irrefl a.file_date_added)]
      · have hlt : a.file_date_added < r.file_date_added :=
          hmax a (List.mem_cons_self a tl) har
        rw [htl]; dsimp only
        rw [if_pos (show r.file_date_added > a.file_date_added from hlt)]
    · have har : r = a := by
        rcases List.mem_cons.mp hmem with h | h
        · exact h
        · exact absurd h hrtl
      subst har
      rcases htl : selectLatest tl with _ | b <;> dsimp only
      have hb : b ∈ tl := selectLatest_mem htl
      have hbne : b ≠ r := fun he => hrtl (he ▸ hb)
      have hlt : b.file_date_added < r.file_date_added :=
        hmax b (List.mem_cons_of_mem r hb) hbne
      rw [if_neg (show ¬ b.file_date_added > r.file_date_added by omega)]

theorem dropWhile_slash_replicate (n : Nat) (l : List Char) :
    List.dropWhile (fun c => c == '/') (List.replicate n '/' ++ l)
      = List.dropWhile (fun c => c == '/') l := by
  induction n with
  | zero => simp
  | succ n ih => simp [List.replicate_succ, List.dropWhile_cons, ih]

theorem rstripSlashes_append_replicate (b : String) (n : Nat) :
    rstripSlashes (b ++ String.mk (List.replicate n '/')) = rstripSlashes b := by
  unfold rstripSlashes
  have hd : (b ++ String.mk (List.replicate n '/')).data
      = b.data ++ List.replicate n '/' := String.data_append b _
  rw [hd, List.reverse_append, List.reverse_replicate, dropWhile_slash_replicate]

/-! ## Claim theorems -/

/-- C2: whenever the module is disabled or the hook is not
`on_postload_evidence_create`, `hooks_handler` returns a success status whose
data is the input unchanged, with an empty effect trace (no path resolution,
no directory creation, no process spawn). -/
theorem hooks_handler_passthrough_C2 (w : World) (conf : ModuleConf)
    (hook_name : String) (data : HookData)
    (h : conf.enabled = false ∨ hook_name ≠ "on_postload_evidence_create") :
    hooks_handler w conf hook_name data = (.I2Success data, []) := by
  unfold hooks_handler
  rcases h with h | h
  · simp [h]
  · rcases hb : conf.enabled
    · simp
    · simp [h]

/-- C2 witness. -/
theorem hooks_handler_passthrough_C2_witness :
    hooks_handler
      ⟨[], fun _ _ => false, fun _ _ _ => some "/d", some "/u", fun _ => .ok⟩
      ⟨false, some "/opt/s.sh", some "", false⟩
      "on_postload_evidence_create" (.list [])
      = (.I2Success (.list []), []) :=
  hooks_handler_passthrough_C2 _ _ _ _ (Or.inl rfl)

/-- C4: with the module enabled and the evidence-creation hook, a missing or
empty script path yields the module-level error result, and the only effect
is the configuration-error log: no per-item resolution, directory
computation, or launch happens for any item. -/
theorem hooks_handler_no_script_C4 (w : World) (conf : ModuleConf)
    (data : HookData)
    (hen : conf.enabled = true)
    (hsp : truthyStr conf.e01_script_path = false) :
    hooks_handler w conf "on_postload_evidence_create" data
      = (.I2Error "e01_script_path not configured",
         [Effect.log .scriptPathNotConfigured]) := by
  simp [hooks_handler, hen, hsp]

/-- C4 witness. -/
theorem hooks_handler_no_script_C4_witness :
    hooks_handler
      ⟨[], fun _ _ => false, fun _ _ _ => some "/d", some "/u", fun _ => .ok⟩
      ⟨true, some "", some "", false⟩
      "on_postload_evidence_create" (.single (.evid ⟨1, some 1, some "h", none⟩))
      = (.I2Error "e01_script_path not configured",
         [Effect.log .scriptPathNotConfigured]) :=
  hooks_handler_no_script_C4 _ _ _ rfl rfl

/-- C7: an evidence item whose content hash or case identifier is falsy makes
`_resolve_evidence_path` return nothing with no database query, and the
per-item processing for that item consists of the warning log only — in
particular no spawn. -/
theorem resolve_missing_fields_C7 (w : World) (sp raw : String) (dbg : Bool)
    (ev : CaseReceivedFile)
    (h : truthyStr ev.file_hash = false ∨ truthyInt ev.case_id = false) :
    resolve_evidence_path w ev = .ok (none, [])
    ∧ process_one_evidence w sp raw dbg ev
        = [Effect.log (.unableToResolve ev.id ev.case_id)] := by
  have h1 : resolve_evidence_path w ev = .ok (none, []) := by
    unfold resolve_evidence_path
    rcases h with h | h <;> simp [h]
  exact ⟨h1, by simp [process_one_evidence, h1]⟩

/-- C7 witness. -/
theorem resolve_missing_fields_C7_witness :
    resolve_evidence_path
      ⟨[⟨4, "h", 1, "/f"⟩], fun _ _ => false, fun _ _ _ => some "/d", some "/u", fun _ => .ok⟩
      ⟨9, some 4, none, none⟩
      = .ok (none, [])
    ∧ process_one_evidence
      ⟨[⟨4, "h", 1, "/f"⟩], fun _ _ => false, fun _ _ _ => some "/d", some "/u", fun _ => .ok⟩
      "/opt/s.sh" "" false ⟨9, some 4, none, none⟩
      = [Effect.log (.unableToResolve 9 (some 4))] :=
  resolve_missing_fields_C7 _ _ _ _ _ (Or.inl rfl)

/-- C3: when the evidence item carries a (truthy) hash and case id, the query
does not raise, and at least two stored-file rows of that case match the
hash, `_resolve_evidence_path` returns the local path of the row with the
strictly latest `file_date_added`. -/
theorem resolve_latest_C3 (w : World) (ev : CaseReceivedFile) (caseId : Int)
    (sha : String) (r : DataStoreFile)
    (hhash : ev.file_hash = some sha)
    (hcase : ev.case_id = some caseId)
    (hth : truthyStr ev.file_hash = true)
    (hti : truthyInt ev.case_id = true)
    (hnr : w.queryRaises caseId sha = false)
    (_hlen : 2 ≤ (matchingRows w.db caseId sha).length)
    (hmem : r ∈ matchingRows w.db caseId sha)
    (hmax : ∀ s ∈ matchingRows w.db caseId sha, s ≠ r →
        s.file_date_added < r.file_date_added) :
    resolve_evidence_path w ev
      = .ok (some r.file_local_name, [Effect.dbQuery caseId sha]) := by
  have hsel : dsfQueryFirst w.db caseId sha = some r :=
    selectLatest_strict_max hmem hmax
  unfold resolve_evidence_path
  simp [hhash, hcase, hnr, hsel, hhash ▸ hth, hcase ▸ hti]

/-- C3 witness: two rows of case 4 share the hash, dated 1 and 9; the one
dated 9 is selected. -/
theorem resolve_latest_C3_witness :
    resolve_evidence_path
      ⟨[⟨4, "aa", 1, "/old.e01"⟩, ⟨4, "aa", 9, "/new.e01"⟩, ⟨5, "aa", 99, "/x"⟩],
       fun _ _ => false, fun _ _ _ => some "/d", some "/u", fun _ => .ok⟩
      ⟨7, some 4, some "aa", none⟩
      = .ok (some "/new.e01", [Effect.dbQuery 4 "aa"]) :=
  resolve_latest_C3 _ _ 4 "aa" ⟨4, "aa", 9, "/new.e01"⟩
    rfl rfl rfl rfl rfl (by decide) (by decide) (by decide)

/-- C5: a non-empty extra-arguments string rejected by the shell-word
tokenizer makes the launcher log the parse error and still spawn the script
with the argument vector exactly `[script path, resolved file path]`. -/
theorem launch_malformed_args_C5 (w : World) (sp raw e01 : String)
    (od : Option String) (err : ShlexErr)
    (hraw : raw.isEmpty = false)
    (hbad : shlexSplit raw = .error err)
    (hspawn : w.spawnOutcome [sp, e01] = .ok) :
    launch_processing_script w sp raw e01 od
      = [Effect.log (.parseExtraArgsFailed raw),
         Effect.spawn [sp, e01] (effectiveCwd od w)] := by
  simp [launch_processing_script, hraw, hbad, hspawn]

/-- C5 witness: an unterminated double quote. -/
theorem launch_malformed_args_C5_witness :
    launch_processing_script
      ⟨[], fun _ _ => false, fun _ _ _ => some "/d", some "/u", fun _ => .ok⟩
      "/opt/s.sh" "\"unterminated" "/data/img.e01" none
      = [Effect.log (.parseExtraArgsFailed "\"unterminated"),
         Effect.spawn ["/opt/s.sh", "/data/img.e01"] (some "/u")] :=
  launch_malformed_args_C5 _ _ _ _ _ ShlexErr.noClosingQuotation rfl rfl rfl

/-- C6: the launcher handles every spawn outcome by returning an effect
trace (nothing is raised past its boundary): a `FileNotFoundError` — the
class raised when the script path does not exist, logged by the module as
"not found or not executable" — produces the dedicated log line, any other
spawn exception produces the generic one, and the two log lines are distinct
for all script paths. -/
theorem launch_failure_contained_C6 (w : World) (sp e01 : String)
    (od : Option String) :
    launch_processing_script w sp "" e01 od
      = (match w.spawnOutcome [sp, e01] with
         | .ok => [Effect.spawn [sp, e01] (effectiveCwd od w)]
         | .raisesFileNotFound => [Effect.log (.scriptNotFound sp)]
         | .raisesOther => [Effect.log (.launchScriptFailed sp)])
    ∧ (∀ s1 s2 : String, LogMsg.scriptNotFound s1 ≠ LogMsg.launchScriptFailed s2) := by
  constructor
  · rcases hso : w.spawnOutcome [sp, e01] <;>
      simp [launch_processing_script, hso,
        show ("" : String).isEmpty = true from rfl]
  · intro s1 s2 hcontra
    exact LogMsg.noConfusion hcontra

/-- C1: with the module enabled, the evidence-creation hook, a configured
script path, and a recognized evidence item `bad` somewhere in the payload
whose per-item processing raises (the database layer raising out of the path
resolution), `hooks_handler` logs the exception for `bad`, still processes
every remaining item (their effect traces appear unchanged after it), and
returns a success status carrying the original, unmodified payload. -/
theorem hooks_handler_partial_failure_C1 (w : World) (conf : ModuleConf)
    (data : HookData) (l1 l2 : List CaseReceivedFile) (bad : CaseReceivedFile)
    (effs : List Effect)
    (hen : conf.enabled = true)
    (hsp : truthyStr conf.e01_script_path = true)
    (hev : extractEvidences data = l1 ++ bad :: l2)
    (hraise : resolve_evidence_path w bad = .error effs) :
    hooks_handler w conf "on_postload_evidence_create" data
      = (.I2Success data,
         l1.flatMap (process_one_evidence w (conf.e01_script_path.getD "")
             (conf.e01_script_extra_args.getD "") conf.log_debug)
           ++ (effs ++ [Effect.log (.itemException bad.id)])
           ++ l2.flatMap (process_one_evidence w (conf.e01_script_path.getD "")
             (conf.e01_script_extra_args.getD "") conf.log_debug)) := by
  have hbad : process_one_evidence w (conf.e01_script_path.getD "")
      (conf.e01_script_extra_args.getD "") conf.log_debug bad
      = effs ++ [Effect.log (.itemException bad.id)] := by
    simp [process_one_evidence, hraise]
  unfold hooks_handler
  simp [hen, hsp, hev, List.flatMap_append, List.flatMap_cons, hbad,
    List.append_assoc]

/-- C1 witness: three recognized items; the middle one hits a raising
database query (case id 7), the first and third resolve normally. -/
theorem hooks_handler_partial_failure_C1_witness :
    hooks_handler
      ⟨[⟨4, "aa", 1, "/img.e01"⟩], fun c _ => c == 7, fun _ _ _ => some "/d",
       some "/u", fun _ => .ok⟩
      ⟨true, some "/opt/s.sh", some "", false⟩
      "on_postload_evidence_create"
      (.list [.evid ⟨1, some 4, some "aa", none⟩, .other 0,
              .evid ⟨2, some 7, some "bb", none⟩,
              .evid ⟨3, some 4, some "aa", none⟩])
      = (.I2Success
          (.list [.evid ⟨1, some 4, some "aa", none⟩, .other 0,
                  .evid ⟨2, some 7, some "bb", none⟩,
                  .evid ⟨3, some 4, some "aa", none⟩]),
         [(⟨1, some 4, some "aa", none⟩ : CaseReceivedFile)].flatMap
             (process_one_evidence
               ⟨[⟨4, "aa", 1, "/img.e01"⟩], fun c _ => c == 7, fun _ _ _ => some "/d",
                some "/u", fun _ => .ok⟩ "/opt/s.sh" "" false)
           ++ ([Effect.dbQuery 7 "bb"] ++ [Effect.log (.itemException 2)])
           ++ [(⟨3, some 4, some "aa", none⟩ : CaseReceivedFile)].flatMap
             (process_one_evidence
               ⟨[⟨4, "aa", 1, "/img.e01"⟩], fun c _ => c == 7, fun _ _ _ => some "/d",
                some "/u", fun _ => .ok⟩ "/opt/s.sh" "" false)) :=
  hooks_handler_partial_failure_C1 _ _ _
    [⟨1, some 4, some "aa", none⟩] [⟨3, some 4, some "aa", none⟩]
    ⟨2, some 7, some "bb", none⟩ [Effect.dbQuery 7 "bb"] rfl rfl rfl rfl

/-- C8: `import_csv` performs the single POST and reports on its response:
a success status (`resp.ok`) prints the success line built from the body's
`message` field (falling back to the body itself) and returns 0; any other
status prints the status code and the parsed-or-raw body to standard error
and returns 1. -/
theorem import_csv_report_C8 (w : CliWorld) (base : String) (cid : Int)
    (path : String) (tok ck : Option String) (src : String)
    (insum ingraph sync : Bool) (resp : HttpResponse)
    (hr : w.post (build_request_url base cid) = resp) :
    import_csv w base cid path tok ck src insum ingraph sync
      = (if respOk resp then (0 : Int) else 1,
         [CliEffect.readFile path,
          CliEffect.httpPost (build_request_url base cid),
          if respOk resp then
            CliEffect.printOut ("[+] Import succeeded: "
              ++ successDisplay (respDataOf resp))
          else
            CliEffect.printErr ("[-] Import failed (HTTP "
              ++ toString resp.status_code ++ "): " ++ reprData (respDataOf resp))]) := by
  cases hok : respOk resp <;> simp [import_csv, hr, hok]

/-- C8 witness: a 200 response whose body is `{message: ok}`. -/
theorem import_csv_report_C8_witness :
    import_csv
      ⟨fun _ => true, fun _ => "a,b", fun p => p,
       fun _ => ⟨200, some [("message", "ok")], "ignored"⟩⟩
      "https://iris.local/api" 3 "/tmp/t.csv" none none "E01 timeline" true true false
      = (0, [CliEffect.readFile "/tmp/t.csv",
             CliEffect.httpPost (build_request_url "https://iris.local/api" 3),
             CliEffect.printOut ("[+] Import succeeded: "
               ++ successDisplay (respDataOf ⟨200, some [("message", "ok")], "ignored"⟩))]) :=
  import_csv_report_C8 _ _ _ _ _ _ _ _ _ _ ⟨200, some [("message", "ok")], "ignored"⟩ rfl

/-- C9: when the resolved `--csv` path is not an existing file, `main` prints
the error to standard error and returns 1; its effect trace contains no file
read and no HTTP POST — `import_csv` is never reached. -/
theorem main_missing_csv_C9 (w : CliWorld) (args : CliArgs)
    (h : w.isFile (w.resolvePath args.csv) = false) :
    CsvImport.main w args
      = (1, [CliEffect.printErr ("CSV file not found: " ++ w.resolvePath args.csv)]) := by
  simp [CsvImport.main, h]

/-- C9 witness. -/
theorem main_missing_csv_C9_witness :
    CsvImport.main
      ⟨fun _ => false, fun _ => "", fun p => p,
       fun _ => ⟨200, none, ""⟩⟩
      ⟨"https://iris.local/api", 3, "/tmp/missing.csv", none, none,
       "E01 timeline", false, false, false⟩
      = (1, [CliEffect.printErr ("CSV file not found: " ++ "/tmp/missing.csv")]) :=
  main_missing_csv_C9 _ _ rfl

/-- C10: the request URL is the base URL stripped of all trailing slashes,
concatenated with the case-scoped path; hence base URLs differing only in
trailing slashes produce the identical request URL. -/
theorem build_request_url_C10 (b : String) (n1 n2 : Nat) (cid : Int) :
    build_request_url b cid
      = rstripSlashes b ++ "/case/evidences/" ++ toString cid
        ++ "/../timeline/events/csv_upload"
    ∧ build_request_url (b ++ String.mk (List.replicate n1 '/')) cid
      = build_request_url (b ++ String.mk (List.replicate n2 '/')) cid := by
  refine ⟨rfl, ?_⟩
  unfold build_request_url
  rw [rstripSlashes_append_replicate, rstripSlashes_append_replicate]
